import Mathlib

/-!
Shallow embedding of the uTP connection engine in `src/utp/socket.rs`
(crate `rustorrent`): connection state machine, handshake, send pipeline,
receive loop and congestion responses.

Conventions of the embedding:
* `u16` sequence numbers are `Nat` reduced `% 65536` exactly where the Rust
  code wraps (`+=` on `SequenceNumber`); `u32` windows never approach
  overflow in the modelled operations and are plain `Nat`.
* `Duration` values are `Nat` (milliseconds); `Duration::from_secs(1)`
  becomes `1000`.
* A Rust panic (e.g. `Option::unwrap` on `None`) is `Option.none` of the
  embedded function; fallible operations return `Option`/sum results.
* The UDP transport is an oracle passed to each function that performs
  I/O: for each receive attempt the oracle yields the outcome the kernel
  would have produced (data, would-block/timed-out, or a fatal error).
* `Delay::since` (wall-clock dependent, defined outside this file's
  source) is a function parameter `since`; only the fact that the `delay`
  field is recomputed from the packet's timestamp matters here.
-/

/-- Connection states, from `enum State` in `socket.rs`. -/
inductive ConnState
  | None
  | SynSent
  | Connected
  | FinSent
  deriving DecidableEq, Repr

/-- Packet types, from the `PacketType` enum used by `dispatch`. -/
inductive PacketType
  | syn
  | state
  | data
  | fin
  | reset
  deriving DecidableEq, Repr

def INIT_CWND : Nat := 2
def MIN_CWND : Nat := 2
/-- Sender's Maximum Segment Size, set to Ethernet MTU (`const MSS`). -/
def MSS : Nat := 1400

/-- An owned `Packet` as stored in the inflight queue: header fields the
code reads or writes, plus its total `size()` (header + payload bytes).
Setters (`set_ack_number` etc.) are record updates; none of them changes
`size`. -/
structure Packet where
  seq_number : Nat
  ack_number : Nat
  connection_id : Nat
  window_size : Nat
  timestamp : Nat
  size : Nat
  deriving DecidableEq, Repr

/-- A decoded incoming packet view (`PacketRef`): the header fields
`dispatch`/`handle_state` read. `ptype` is the already-validated
`get_type()` result; `timestamp_diff` is the echoed delay (`Delay`,
a signed quantity). -/
structure PacketView where
  ptype : PacketType
  connection_id : Nat
  seq_number : Nat
  ack_number : Nat
  window_size : Nat
  timestamp : Nat
  timestamp_diff : Int
  deriving DecidableEq, Repr

/-- Modelled from the spec: `DelayHistory` lives outside `socket.rs`
(module `utp`); per spec §3 it accumulates delay samples for the LEDBAT
baseline/filter. Only the fact that `add_delay` records the sample
matters for the claims below, so the history is the list of samples
added. -/
abbrev DelayHistory := List Int

def DelayHistory.new : DelayHistory := []

def DelayHistory.add_delay (h : DelayHistory) (d : Int) : DelayHistory :=
  h ++ [d]

/-- The connection state of `struct UtpSocket`, minus the raw
`UdpSocket` handle (pure I/O, replaced by oracles). `SocketAddr`s are
reduced to their IP family, the only thing the code inspects
(`is_ipv4`). -/
structure UtpSocket where
  localIsIpv4 : Bool
  remote : Option Bool
  recv_id : Nat
  send_id : Nat
  state : ConnState
  ack_number : Nat
  seq_number : Nat
  delay : Int
  remote_window : Nat
  inflight_packets : List Packet
  delay_history : DelayHistory
  cwnd : Nat
  congestion_timeout : Nat
  deriving DecidableEq, Repr

/-- `UtpSocket::new`: the randomly generated connection ids and initial
sequence number are parameters. -/
def UtpSocket.new (localIsIpv4 : Bool) (recvId sendId seq0 : Nat) : UtpSocket :=
  { localIsIpv4 := localIsIpv4
    remote := none
    recv_id := recvId
    send_id := sendId
    state := ConnState.None
    ack_number := 0
    seq_number := seq0 % 65536
    delay := 0
    remote_window := INIT_CWND * MSS
    inflight_packets := []
    delay_history := DelayHistory.new
    cwnd := INIT_CWND * MSS
    congestion_timeout := 1000 }

/-- `UtpSocket::inflight_size`: total bytes sent but not acked. -/
def inflight_size (s : UtpSocket) : Nat :=
  (s.inflight_packets.map Packet.size).sum

/-- `UtpSocket::on_data_loss`:
`self.cwnd = cwnd.min((cwnd / 2).max(MIN_CWND * MSS));` -/
def on_data_loss (s : UtpSocket) : UtpSocket :=
  { s with cwnd := Nat.min s.cwnd (Nat.max (s.cwnd / 2) (MIN_CWND * MSS)) }

/-- `UtpSocket::on_congestion_timeout_expired`:
`self.cwnd = MSS; self.congestion_timeout *= 2;` -/
def on_congestion_timeout_expired (s : UtpSocket) : UtpSocket :=
  { s with cwnd := MSS, congestion_timeout := s.congestion_timeout * 2 }

/-- `UtpSocket::handle_state` (ACK processing in `Connected`):
finds the inflight entry whose sequence number equals the ack number,
takes its size via `acked.unwrap().size()` — a panic when no entry
matches, modelled as `none` — records a non-zero `timestamp_diff` into
the delay history, and pops the front of the inflight queue. (The
`ackeds` iterator built with `filter(...cmp_less_equal...)` is never
consumed — Rust iterators are lazy — so it has no effect.) -/
def handle_state (s : UtpSocket) (pkt : PacketView) : Option UtpSocket :=
  let ackNr := pkt.ack_number
  match s.inflight_packets.find? (fun p => p.seq_number == ackNr) with
  | none => none
  | some acked =>
    let _nbytes := acked.size
    let s1 :=
      if pkt.timestamp_diff ≠ 0 then
        { s with delay_history := s.delay_history.add_delay pkt.timestamp_diff }
      else s
    some { s1 with inflight_packets := s1.inflight_packets.tail }

/-- `UtpSocket::dispatch`: recomputes `delay` from the packet timestamp
(`Delay::since`, the `since` parameter), then routes on
`(packet type, connection state)`. `rng` stands for the
`SequenceNumber::random()` drawn in the `(Syn, None)` arm. `none` is the
panic that `handle_state` can raise. -/
def dispatch (since : Nat → Int) (rng : Nat) (s : UtpSocket) (p : PacketView) :
    Option UtpSocket :=
  let s := { s with delay := since p.timestamp }
  match p.ptype, s.state with
  | PacketType.syn, ConnState.None =>
    some { s with
      state := ConnState.Connected
      recv_id := (p.connection_id + 1) % 65536
      send_id := p.connection_id
      seq_number := rng % 65536
      ack_number := p.seq_number }
  | PacketType.syn, _ => some s
  | PacketType.state, ConnState.SynSent =>
    some { s with
      state := ConnState.Connected
      ack_number := (p.seq_number + 65535) % 65536
      remote_window := p.window_size }
  | PacketType.state, ConnState.Connected => handle_state s p
  | PacketType.state, _ => some s
  | PacketType.data, _ => some s
  | PacketType.fin, _ => some s
  | PacketType.reset, _ => some s

/-- The window-wait loop at the head of `UtpSocket::send_packet`:
`while packet_size + inflight_size > cwnd.min(remote_window) { receive_packet()?; ... }`.
`recv` is the effect of one `receive_packet` call on the connection
state (`none` = the `?` propagates an error); `fuel` bounds the number
of iterations, `none` on exhaustion standing for non-termination. -/
def send_packet_loop (recv : UtpSocket → Option UtpSocket) (psize : Nat) :
    Nat → UtpSocket → Option UtpSocket
  | 0, _ => none
  | fuel + 1, s =>
    if psize + inflight_size s > Nat.min s.cwnd s.remote_window then
      match recv s with
      | none => none
      | some s' => send_packet_loop recv psize fuel s'
    else some s

/-- `UtpSocket::send_packet`: wait for the effective window to admit the
packet, stamp it (ack number, sequence number, connection id, advertised
window, fresh timestamp `now`), increment `seq_number`, transmit, and
push it on the inflight queue. Returns the updated socket and the packet
as transmitted. -/
def send_packet (recv : UtpSocket → Option UtpSocket) (fuel : Nat) (now : Nat)
    (s : UtpSocket) (packet : Packet) : Option (UtpSocket × Packet) :=
  match send_packet_loop recv packet.size fuel s with
  | none => none
  | some s' =>
    let packet' : Packet :=
      { packet with
        ack_number := s'.ack_number
        seq_number := s'.seq_number
        connection_id := s'.send_id
        window_size := 1048576
        timestamp := now }
    some ({ s' with
            seq_number := (s'.seq_number + 1) % 65536
            inflight_packets := s'.inflight_packets ++ [packet'] },
          packet')

/-- Outcome of one `recv_timeout` attempt on the UDP socket, as supplied
by the transport oracle: data arrived (`ok`, with the decoded packet, or
`none` when `PacketRef::ref_from_buffer` fails), the would-block /
timed-out condition the loop retries on, or any other error (fatal). -/
inductive RecvOutcome
  | ok (decoded : Option PacketView)
  | timeout
  | fatal
  deriving DecidableEq, Repr

/-- Result of the 3-attempt receive loop body in
`UtpSocket::receive_packet`. -/
inductive RecvLoopResult
  | got (decoded : Option PacketView)
  | fatal
  | timedOut
  deriving DecidableEq, Repr

/-- The `for _ in 0..3` loop of `UtpSocket::receive_packet`: attempt `i`
waits with the current `timeout`, which doubles (`timeout *= 2`) after
each would-block/timed-out attempt. Returns the list of wait durations
actually used, in order, together with the loop outcome. -/
def recv_loop (oracle : Nat → RecvOutcome) :
    Nat → Nat → Nat → List Nat × RecvLoopResult
  | 0, _, _ => ([], RecvLoopResult.timedOut)
  | attempts + 1, timeout, i =>
    match oracle i with
    | RecvOutcome.ok d => ([timeout], RecvLoopResult.got d)
    | RecvOutcome.timeout =>
      let r := recv_loop oracle attempts (timeout * 2) (i + 1)
      (timeout :: r.1, r.2)
    | RecvOutcome.fatal => ([timeout], RecvLoopResult.fatal)

/-- Errors surfaced by `receive_packet` / `connect` (`UtpError` and the
`std::io::Error`s the code builds), plus `panicked` for a Rust panic
reached through `dispatch`. -/
inductive UtpFailure
  | famillyMismatch
  | transport
  | timedOut
  | decode
  | panicked
  deriving DecidableEq, Repr

/-- `UtpSocket::receive_packet`: run the 3-attempt receive loop starting
from `congestion_timeout`, then decode and dispatch the datagram if one
arrived. -/
def receive_packet (oracle : Nat → RecvOutcome) (since : Nat → Int) (rng : Nat)
    (s : UtpSocket) : Except UtpFailure UtpSocket :=
  match (recv_loop oracle 3 s.congestion_timeout 0).2 with
  | RecvLoopResult.timedOut => Except.error UtpFailure.timedOut
  | RecvLoopResult.fatal => Except.error UtpFailure.transport
  | RecvLoopResult.got none => Except.error UtpFailure.decode
  | RecvLoopResult.got (some p) =>
    match dispatch since rng s p with
    | none => Except.error UtpFailure.panicked
    | some s' => Except.ok s'

/-- Outcome of one handshake round's `recv_from_timeout` in
`UtpSocket::connect`: a reply from `srcIsIpv4` (decoded packet, `none`
on decode failure), would-block/timed-out, or a fatal transport
error. -/
inductive RoundOutcome
  | ok (decoded : Option PacketView) (srcIsIpv4 : Bool)
  | timeout
  | fatal
  deriving DecidableEq, Repr

/-- Result of a `connect` call: success or one of its failures. -/
inductive ConnResult
  | ok
  | err (e : UtpFailure)
  deriving DecidableEq, Repr

/-- The `for _ in 0..3` handshake loop of `UtpSocket::connect` together
with the `if let Some(len)` epilogue. Each round re-stamps and transmits
the one SYN header built before the loop (`synSeq` is its sequence
number; transmitted sequence numbers are accumulated). On the first
reply the peer address is latched, the state becomes `SynSent`, and the
reply is dispatched. Returns (result, final socket, transmitted SYN
sequence numbers in order). -/
def connect_loop (oracle : Nat → RoundOutcome) (since : Nat → Int) (rng : Nat)
    (synSeq : Nat) :
    Nat → Nat → UtpSocket → List Nat → ConnResult × UtpSocket × List Nat
  | 0, _, s, sent => (ConnResult.err UtpFailure.timedOut, s, sent.reverse)
  | rounds + 1, i, s, sent =>
    let sent := synSeq :: sent
    match oracle i with
    | RoundOutcome.timeout => connect_loop oracle since rng synSeq rounds (i + 1) s sent
    | RoundOutcome.fatal => (ConnResult.err UtpFailure.transport, s, sent.reverse)
    | RoundOutcome.ok decoded srcIsIpv4 =>
      let s := { s with remote := some srcIsIpv4, state := ConnState.SynSent }
      match decoded with
      | none => (ConnResult.err UtpFailure.decode, s, sent.reverse)
      | some p =>
        match dispatch since rng s p with
        | none => (ConnResult.err UtpFailure.panicked, s, sent.reverse)
        | some s' => (ConnResult.ok, s', sent.reverse)

/-- `UtpSocket::connect`: reject a peer of the wrong IP family before
any I/O, associate the UDP socket (`udpConnectOk` is that call's
outcome), build the SYN header carrying the current `seq_number` and
increment `seq_number` once, then run up to 3 transmit/receive rounds.
Returns (result, final socket, transmitted SYN sequence numbers). -/
def connect (oracle : Nat → RoundOutcome) (since : Nat → Int) (rng : Nat)
    (udpConnectOk : Bool) (addrIsIpv4 : Bool) (s : UtpSocket) :
    ConnResult × UtpSocket × List Nat :=
  if addrIsIpv4 != s.localIsIpv4 then
    (ConnResult.err UtpFailure.famillyMismatch, s, [])
  else if !udpConnectOk then
    (ConnResult.err UtpFailure.transport, s, [])
  else
    let synSeq := s.seq_number
    let s := { s with seq_number := (s.seq_number + 1) % 65536 }
    connect_loop oracle since rng synSeq 3 0 s []

/-- The congestion-relevant operations of claim C1: ACK processing
(`handle_state` on a `State` packet in `Connected`), the data-loss
response and the congestion-timeout response. -/
inductive CCOp
  | ack (p : PacketView)
  | dataLoss
  | timeoutExpiry
  deriving DecidableEq, Repr

def applyCCOp : CCOp → UtpSocket → Option UtpSocket
  | CCOp.ack p, s => handle_state s p
  | CCOp.dataLoss, s => some (on_data_loss s)
  | CCOp.timeoutExpiry, s => some (on_congestion_timeout_expired s)

def applyCCOps : List CCOp → UtpSocket → Option UtpSocket
  | [], s => some s
  | op :: ops, s =>
    match applyCCOp op s with
    | none => none
    | some s' => applyCCOps ops s'

/-! Concrete fixtures used by counterexamples and witnesses. -/

/-- A `Connected` socket holding one inflight packet with sequence
number 5 (100 bytes). -/
def c2sock : UtpSocket :=
  { UtpSocket.new true 1 2 3 with
    state := ConnState.Connected
    inflight_packets := [{ seq_number := 5, ack_number := 0,
                           connection_id := 2, window_size := 1048576,
                           timestamp := 0, size := 100 }] }

/-- An ACK (`State`) packet acknowledging sequence number 7, which is
not in `c2sock`'s inflight queue. -/
def c2pkt : PacketView :=
  { ptype := PacketType.state, connection_id := 2, seq_number := 9,
    ack_number := 7, window_size := 1048576, timestamp := 0,
    timestamp_diff := 0 }

/-- A `Connected` socket with inflight packets 5 (100 bytes) then
6 (200 bytes), in transmission order. -/
def c4sock : UtpSocket :=
  { UtpSocket.new true 1 2 3 with
    state := ConnState.Connected
    inflight_packets := [{ seq_number := 5, ack_number := 0,
                           connection_id := 2, window_size := 1048576,
                           timestamp := 0, size := 100 },
                         { seq_number := 6, ack_number := 0,
                           connection_id := 2, window_size := 1048576,
                           timestamp := 0, size := 200 }] }

/-- An ACK (`State`) packet acknowledging sequence number 6, the second
entry of `c4sock`'s inflight queue. -/
def c4pkt : PacketView :=
  { ptype := PacketType.state, connection_id := 2, seq_number := 9,
    ack_number := 6, window_size := 1048576, timestamp := 0,
    timestamp_diff := 0 }

/-- A `Connected` socket with the single inflight packet 5. -/
def c4wsock : UtpSocket :=
  { UtpSocket.new true 1 2 3 with
    state := ConnState.Connected
    inflight_packets := [{ seq_number := 5, ack_number := 0,
                           connection_id := 2, window_size := 1048576,
                           timestamp := 0, size := 100 }] }

/-- An ACK (`State`) packet acknowledging sequence number 5. -/
def c4wpkt : PacketView :=
  { ptype := PacketType.state, connection_id := 2, seq_number := 9,
    ack_number := 5, window_size := 1048576, timestamp := 0,
    timestamp_diff := 0 }

/-- `handle_state c4wsock c4wpkt` evaluated: the queue's only entry is
popped. -/
def c4wres : UtpSocket := { c4wsock with inflight_packets := [] }

/-- A fresh socket (initial window `INIT_CWND * MSS`, empty inflight
queue). -/
def w3sock : UtpSocket := UtpSocket.new true 1 2 3

/-- A 100-byte data packet before stamping. -/
def w3pkt : Packet :=
  { seq_number := 0, ack_number := 0, connection_id := 0,
    window_size := 0, timestamp := 0, size := 100 }

/-- `w3pkt` as stamped by `send_packet` on `w3sock`. -/
def w3tx : Packet :=
  { w3pkt with
    ack_number := w3sock.ack_number
    seq_number := w3sock.seq_number
    connection_id := w3sock.send_id
    window_size := 1048576
    timestamp := 0 }

/-- `w3sock` after `send_packet` admitted and transmitted `w3pkt`. -/
def w3res : UtpSocket :=
  { w3sock with
    seq_number := (w3sock.seq_number + 1) % 65536
    inflight_packets := [w3tx] }

/-- A fresh socket with initial sequence number 100. -/
def c7sock : UtpSocket := UtpSocket.new true 1 2 100

/-- A `Data` packet arriving on a fresh socket. -/
def w10pkt : PacketView :=
  { ptype := PacketType.data, connection_id := 2, seq_number := 9,
    ack_number := 7, window_size := 1048576, timestamp := 42,
    timestamp_diff := 0 }

/-- C6: for every congestion window value `c = s.cwnd`, the data-loss
response yields exactly `min(c, max(c/2, MIN_CWND * MSS))` and changes
no other connection state. -/
theorem on_data_loss_formula (s : UtpSocket) :
    on_data_loss s =
      { s with cwnd := min s.cwnd (max (s.cwnd / 2) (MIN_CWND * MSS)) } := rfl

/-- C5: with initial timeout `t = congestion_timeout`, the receive
loop's wait at attempt `i` (for `i = 1, 2, 3`) is `t * 2^(i-1)`; the
loop having exhausted all 3 attempts without data reports a timeout
error, and the congestion-timeout-expiry response doubles the
`congestion_timeout` field. -/
theorem receive_backoff_and_timeout_doubling (since : Nat → Int) (rng : Nat)
    (s : UtpSocket) :
    (recv_loop (fun _ => RecvOutcome.timeout) 3 s.congestion_timeout 0).1 =
      [s.congestion_timeout * 2 ^ 0,
       s.congestion_timeout * 2 ^ 1,
       s.congestion_timeout * 2 ^ 2] ∧
    receive_packet (fun _ => RecvOutcome.timeout) since rng s =
      Except.error UtpFailure.timedOut ∧
    (on_congestion_timeout_expired s).congestion_timeout =
      s.congestion_timeout * 2 := by
  refine ⟨?_, ?_, rfl⟩
  · simp [recv_loop]
    ring
  · simp [receive_packet, recv_loop]

/-- C8: a `connect` call whose peer address has the opposite IP family
to the bound local address fails with the family-mismatch error, before
any I/O (no SYN transmitted, the UDP association not even attempted) and
without mutating any connection state. -/
theorem connect_family_mismatch_fails_fast (oracle : Nat → RoundOutcome)
    (since : Nat → Int) (rng : Nat) (udpConnectOk : Bool) (s : UtpSocket) :
    connect oracle since rng udpConnectOk (!s.localIsIpv4) s =
      (ConnResult.err UtpFailure.famillyMismatch, s, []) := by
  simp [connect]

/-- C2 (the code panics instead of reporting an error): with a
`Connected` socket whose inflight queue holds only sequence number 5,
an ACK for 7 matches no inflight entry, and ACK processing hits
`acked.unwrap()` on `None` — a panic (`none` in this embedding), both
in `handle_state` and through `dispatch`. -/
theorem handle_state_unmatched_ack_panics :
    c2sock.inflight_packets.find?
        (fun p => p.seq_number == c2pkt.ack_number) = none ∧
    handle_state c2sock c2pkt = none ∧
    dispatch (fun _ => 0) 0 c2sock c2pkt = none := by
  refine ⟨rfl, rfl, rfl⟩

/-- C10: dispatching a received packet of type `Data`, `Fin` or `Reset`
in any connection state succeeds and leaves every connection field
unchanged except `delay`, which is recomputed from the packet's
timestamp before the type/state table is applied. -/
theorem dispatch_data_fin_reset_delay_only (since : Nat → Int) (rng : Nat)
    (s : UtpSocket) (p : PacketView)
    (h : p.ptype = PacketType.data ∨ p.ptype = PacketType.fin ∨
         p.ptype = PacketType.reset) :
    dispatch since rng s p = some { s with delay := since p.timestamp } := by
  rcases h with h | h | h <;> simp [dispatch, h]

/-- Witness for `dispatch_data_fin_reset_delay_only` at the `Data`
packet `w10pkt` on the fresh socket `c7sock`. -/
theorem dispatch_data_fin_reset_delay_only_witness :
    dispatch (fun _ => 0) 0 c7sock w10pkt =
      some { c7sock with delay := 0 } :=
  dispatch_data_fin_reset_delay_only (fun _ => 0) 0 c7sock w10pkt (Or.inl rfl)

/-- C4 fails as stated: processing the ACK for sequence number `N = 6`
against the queue `[5, 6]` pops the front entry 5 — the entry whose
sequence number equals `N` remains in the queue, so ACK processing does
not remove the entries the exact-match policy defines it to cover. -/
theorem ack_removal_counterexample :
    c4pkt.ack_number = 6 ∧
    (handle_state c4sock c4pkt).map
        (fun s => s.inflight_packets.map Packet.seq_number) = some [6] := by
  refine ⟨rfl, rfl⟩

/-- C4 amended: ACK processing (when it does not panic) removes exactly
the oldest (front) entry of the Inflight Queue; when the queue is sorted
by sequence number, that entry's sequence number is at most the ACK
number `N`, so no entry with a sequence number higher than `N` is ever
removed. -/
theorem handle_state_removes_oldest (s : UtpSocket) (pkt : PacketView)
    (s' : UtpSocket)
    (hsort : List.Pairwise (fun a b => a.seq_number ≤ b.seq_number)
      s.inflight_packets)
    (h : handle_state s pkt = some s') :
    s'.inflight_packets = s.inflight_packets.tail ∧
    ∀ hd, s.inflight_packets.head? = some hd →
      hd.seq_number ≤ pkt.ack_number := by
  cases hfind : s.inflight_packets.find?
      (fun p => p.seq_number == pkt.ack_number) with
  | none =>
    simp only [handle_state, hfind] at h
    exact Option.noConfusion h
  | some q =>
    have hq : q.seq_number = pkt.ack_number := by
      have := List.find?_some hfind
      exact eq_of_beq this
    have hmem : q ∈ s.inflight_packets := List.mem_of_find?_eq_some hfind
    constructor
    · simp only [handle_state, hfind] at h
      split at h <;> · injection h with h2; rw [← h2]
    · intro hd hhd
      cases hl : s.inflight_packets with
      | nil => rw [hl] at hhd; exact absurd hhd (by simp)
      | cons a tl =>
        have ha : a = hd := by
          rw [hl] at hhd
          simpa using hhd
        rw [hl] at hsort hmem
        rcases List.mem_cons.mp hmem with hqa | hqtl
        · rw [ha] at hqa; rw [← hqa, hq]
        · have := (List.pairwise_cons.mp hsort).1 q hqtl
          rw [ha] at this
          omega

/-- Witness for `handle_state_removes_oldest` on the sorted
single-entry queue of `c4wsock` acked exactly by `c4wpkt`. -/
theorem handle_state_removes_oldest_witness :
    handle_state c4wsock c4wpkt = some c4wres ∧
    c4wres.inflight_packets = c4wsock.inflight_packets.tail :=
  ⟨rfl, (handle_state_removes_oldest c4wsock c4wpkt c4wres (by decide) rfl).1⟩

/-- C1 fails as stated: from the initial state, one congestion-timeout
response reaches a state with `cwnd = MSS = 1400 < MIN_CWND * MSS`. -/
theorem cwnd_floor_counterexample :
    (applyCCOps [CCOp.timeoutExpiry] (UtpSocket.new true 1 2 3)).map
        UtpSocket.cwnd = some MSS ∧
    MSS < MIN_CWND * MSS := by
  refine ⟨rfl, by decide⟩

/-- Each congestion operation preserves the one-MSS floor on `cwnd`. -/
theorem applyCCOp_preserves_mss_floor (op : CCOp) (s s' : UtpSocket)
    (hc : MSS ≤ s.cwnd) (h : applyCCOp op s = some s') : MSS ≤ s'.cwnd := by
  cases op with
  | ack p =>
    have hcw : s'.cwnd = s.cwnd := by
      simp only [applyCCOp] at h
      cases hfind : s.inflight_packets.find?
          (fun q => q.seq_number == p.ack_number) with
      | none =>
        simp only [handle_state, hfind] at h
        exact Option.noConfusion h
      | some q =>
        simp only [handle_state, hfind] at h
        split at h <;> · injection h with h2; rw [← h2]
    rw [hcw]; exact hc
  | dataLoss =>
    simp only [applyCCOp, Option.some.injEq] at h
    rw [← h]
    show MSS ≤ Nat.min s.cwnd (Nat.max (s.cwnd / 2) (MIN_CWND * MSS))
    have h1 : MSS ≤ MIN_CWND * MSS := by decide
    exact Nat.le_min.mpr ⟨hc, Nat.le_trans h1 (Nat.le_max_right _ _)⟩
  | timeoutExpiry =>
    simp only [applyCCOp, Option.some.injEq] at h
    rw [← h]
    show MSS ≤ MSS
    exact Nat.le_refl _

/-- Any run of congestion operations preserves the one-MSS floor. -/
theorem applyCCOps_preserves_mss_floor (ops : List CCOp) (s s' : UtpSocket)
    (hc : MSS ≤ s.cwnd) (h : applyCCOps ops s = some s') : MSS ≤ s'.cwnd := by
  induction ops generalizing s with
  | nil =>
    simp only [applyCCOps, Option.some.injEq] at h
    rw [← h]; exact hc
  | cons op ops ih =>
    simp only [applyCCOps] at h
    cases hop : applyCCOp op s with
    | none => rw [hop] at h; exact Option.noConfusion h
    | some s1 =>
      rw [hop] at h
      exact ih s1 (applyCCOp_preserves_mss_floor op s s1 hc hop) h

/-- C1 amended: for every state reachable from a fresh socket by any
sequence of ACK-processing, data-loss and congestion-timeout
operations, `cwnd ≥ 1 * MSS`. The floor is one MSS, not
`MIN_CWND * MSS`: the congestion-timeout response sets `cwnd = MSS`. -/
theorem cwnd_ge_one_mss_reachable (b : Bool) (r sd q : Nat) (ops : List CCOp)
    (s' : UtpSocket) (h : applyCCOps ops (UtpSocket.new b r sd q) = some s') :
    MSS ≤ s'.cwnd := by
  refine applyCCOps_preserves_mss_floor ops (UtpSocket.new b r sd q) s' ?_ h
  show MSS ≤ INIT_CWND * MSS
  decide

/-- Witness for `cwnd_ge_one_mss_reachable` at the one-step run that
applies the congestion-timeout response to a fresh socket. -/
theorem cwnd_ge_one_mss_reachable_witness :
    MSS ≤ (on_congestion_timeout_expired (UtpSocket.new true 1 2 3)).cwnd :=
  cwnd_ge_one_mss_reachable true 1 2 3 [CCOp.timeoutExpiry]
    (on_congestion_timeout_expired (UtpSocket.new true 1 2 3)) rfl

/-- The window-wait loop only terminates in a state whose effective
window admits the packet. -/
theorem send_packet_loop_le_window (recv : UtpSocket → Option UtpSocket)
    (psize fuel : Nat) (s s' : UtpSocket)
    (h : send_packet_loop recv psize fuel s = some s') :
    psize + inflight_size s' ≤ Nat.min s'.cwnd s'.remote_window := by
  induction fuel generalizing s with
  | zero => exact Option.noConfusion h
  | succ n ih =>
    unfold send_packet_loop at h
    split at h
    · cases hr : recv s with
      | none => rw [hr] at h; exact Option.noConfusion h
      | some s2 => rw [hr] at h; exact ih s2 h
    · next hcond =>
      injection h with h2
      rw [← h2]
      omega

/-- C3: every packet `send_packet` admits and transmits respects the
effective window at the moment of transmission: the inflight byte count
after the push (previous inflight bytes plus the packet's size) does
not exceed `min(cwnd, remote_window)`. -/
theorem send_packet_window_gate (recv : UtpSocket → Option UtpSocket)
    (fuel now : Nat) (s : UtpSocket) (packet : Packet) (s' : UtpSocket)
    (packet' : Packet)
    (h : send_packet recv fuel now s packet = some (s', packet')) :
    inflight_size s' ≤ Nat.min s'.cwnd s'.remote_window := by
  simp only [send_packet] at h
  cases hloop : send_packet_loop recv packet.size fuel s with
  | none => rw [hloop] at h; exact Option.noConfusion h
  | some s0 =>
    rw [hloop] at h
    have hb := send_packet_loop_le_window recv packet.size fuel s s0 hloop
    injection h with h2
    injection h2 with h3 h4
    rw [← h3]
    simp only [inflight_size, List.map_append, List.sum_append,
      List.map_cons, List.map_nil, List.sum_cons, List.sum_nil]
    simp only [inflight_size] at hb
    omega

/-- Witness for `send_packet_window_gate`: the fresh socket `w3sock`
admits the 100-byte packet `w3pkt` immediately. -/
theorem send_packet_window_gate_witness :
    inflight_size w3res ≤ Nat.min w3res.cwnd w3res.remote_window :=
  send_packet_window_gate (fun s => some s) 1 0 w3sock w3pkt w3res w3tx rfl

/-- C7 fails as stated: a `connect` call on `c7sock` (initial
`seq_number = 100`) whose 3 handshake rounds all time out does fail with
the timeout error, but it mutates connection state: `seq_number` was
incremented at SYN construction. -/
theorem connect_timeout_counterexample :
    (connect (fun _ => RoundOutcome.timeout) (fun _ => 0) 0 true true
        c7sock).1 = ConnResult.err UtpFailure.timedOut ∧
    (connect (fun _ => RoundOutcome.timeout) (fun _ => 0) 0 true true
        c7sock).2.1.seq_number ≠ c7sock.seq_number := by
  refine ⟨rfl, by decide⟩

/-- C7 amended: a `connect` call whose 3 handshake rounds all time out
fails with the timeout error; the connection `state` stays `None` (as
does every other field), with the single exception of `seq_number`,
which the failed call leaves incremented once — the increment happens at
SYN construction, before the first transmission. All 3 transmitted SYNs
carry the pre-increment sequence number. -/
theorem connect_all_timeouts_spec (since : Nat → Int) (rng : Nat)
    (s : UtpSocket) :
    connect (fun _ => RoundOutcome.timeout) since rng true s.localIsIpv4 s =
      (ConnResult.err UtpFailure.timedOut,
       { s with seq_number := (s.seq_number + 1) % 65536 },
       [s.seq_number, s.seq_number, s.seq_number]) := by
  simp [connect, connect_loop]

/-- `dispatch` never changes `seq_number` when invoked on a socket in
`SynSent` — the state every `connect`-received reply is dispatched
in (no arm of the `(type, SynSent)` row touches `seq_number`). -/
theorem dispatch_synsent_seq_eq (since : Nat → Int) (rng : Nat)
    (s : UtpSocket) (p : PacketView) (s' : UtpSocket)
    (hs : s.state = ConnState.SynSent)
    (h : dispatch since rng s p = some s') : s'.seq_number = s.seq_number := by
  cases hp : p.ptype <;> simp only [dispatch, hp, hs] at h <;>
    · injection h with h2; rw [← h2]

/-- The handshake loop of `connect` never changes `seq_number` and only
ever transmits `synSeq` (beyond what was already in the accumulator). -/
theorem connect_loop_seq_sent (oracle : Nat → RoundOutcome)
    (since : Nat → Int) (rng : Nat) (synSeq : Nat) (rounds : Nat) :
    ∀ i (s : UtpSocket) (sent : List Nat),
      (connect_loop oracle since rng synSeq rounds i s sent).2.1.seq_number =
        s.seq_number ∧
      ∀ x ∈ (connect_loop oracle since rng synSeq rounds i s sent).2.2,
        x ∈ sent ∨ x = synSeq := by
  induction rounds with
  | zero =>
    intro i s sent
    refine ⟨rfl, ?_⟩
    intro x hx
    simp only [connect_loop, List.mem_reverse] at hx
    exact Or.inl hx
  | succ n ih =>
    intro i s sent
    cases ho : oracle i with
    | timeout =>
      have := ih (i + 1) s (synSeq :: sent)
      constructor
      · simp only [connect_loop, ho]
        exact this.1
      · intro x hx
        simp only [connect_loop, ho] at hx
        rcases this.2 x hx with hmem | hx'
        · rcases List.mem_cons.mp hmem with h1 | h1
          · exact Or.inr h1
          · exact Or.inl h1
        · exact Or.inr hx'
    | fatal =>
      constructor
      · simp only [connect_loop, ho]
      · intro x hx
        simp only [connect_loop, ho, List.mem_reverse, List.mem_cons] at hx
        tauto
    | ok decoded srcIsIpv4 =>
      cases decoded with
      | none =>
        constructor
        · simp only [connect_loop, ho]
        · intro x hx
          simp only [connect_loop, ho, List.mem_reverse, List.mem_cons] at hx
          tauto
      | some p =>
        set s1 : UtpSocket :=
          { s with remote := some srcIsIpv4, state := ConnState.SynSent }
          with hs1
        constructor
        · simp only [connect_loop, ho]
          cases hd : dispatch since rng s1 p with
          | none => rfl
          | some s2 =>
            exact dispatch_synsent_seq_eq since rng s1 p s2 rfl hd
        · intro x hx
          simp only [connect_loop, ho] at hx
          cases hd : dispatch since rng s1 p with
          | none =>
            rw [hd] at hx
            simp only [List.mem_reverse, List.mem_cons] at hx
            tauto
          | some s2 =>
            rw [hd] at hx
            simp only [List.mem_reverse, List.mem_cons] at hx
            tauto

/-- C9: in every `connect` call that reaches SYN construction,
`seq_number` is incremented exactly once — at SYN construction, before
the first transmission — and every transmitted SYN (first or retried,
under any transport behaviour) carries the same pre-increment sequence
number. -/
theorem connect_syn_seq_once (oracle : Nat → RoundOutcome)
    (since : Nat → Int) (rng : Nat) (s : UtpSocket) :
    ((connect oracle since rng true s.localIsIpv4 s).2.2).all
        (fun x => x == s.seq_number) = true ∧
    (connect oracle since rng true s.localIsIpv4 s).2.1.seq_number =
      (s.seq_number + 1) % 65536 := by
  have key := connect_loop_seq_sent oracle since rng s.seq_number 3 0
    { s with seq_number := (s.seq_number + 1) % 65536 } []
  constructor
  · simp only [connect, bne_self_eq_false, Bool.false_eq_true, if_false,
      Bool.not_true]
    rw [List.all_eq_true]
    intro x hx
    rcases key.2 x hx with hmem | hx'
    · exact absurd hmem (List.not_mem_nil x)
    · exact beq_iff_eq.mpr hx'
  · simp only [connect, bne_self_eq_false, Bool.false_eq_true, if_false,
      Bool.not_true]
    exact key.1
